import Mathlib

/-!
Verification development for the SAMRAI inter-patch communication layer.

The definitions below are shallow embeddings of the C++ sources:
`hier/BlockId.cpp`, `hier/PeriodicId.cpp`, `pdat/FaceConstantRefine.cpp`,
`algs/OuternodeSumTransactionFactory.cpp` and
`algs/TimeRefinementIntegratorConnectorWidthRequestor.cpp`.
Machine integers are modelled as `Int`, C `double` values as `Rat`,
C++ truncating integer division as `Int.tdiv`, and nullable pointers as
`Option`.  Debug-assertion failures (`TBOX_ASSERT`, `TBOX_ERROR`) are
modelled as `Except` error results, listed in source order.
-/

/-- Maximum representable value of the C `int` type,
`tbox::MathUtilities<int>::getMax()` for 32-bit `int`. -/
def intMax : Int := 2 ^ 31 - 1

/-- `hier::BlockId`: block identifier in a multiblock domain, wrapping an `int`. -/
structure BlockId where
  d_value : Int
  deriving DecidableEq

/-- `BlockId::s_invalid_id`, constructed from `tbox::MathUtilities<int>::getMax()`
(BlockId.cpp lines 19-21). -/
def BlockId.s_invalid_id : BlockId := ⟨intMax⟩

/-- `BlockId::s_zero_id`, constructed from `0` (BlockId.cpp line 22). -/
def BlockId.s_zero_id : BlockId := ⟨0⟩

/-- `hier::PeriodicId`: periodic shift identifier, wrapping an `int`. -/
structure PeriodicId where
  d_value : Int
  deriving DecidableEq

/-- `PeriodicId::s_invalid_id`, constructed from `-1` (PeriodicId.cpp line 17). -/
def PeriodicId.s_invalid_id : PeriodicId := ⟨-1⟩

/-- `PeriodicId::s_zero_id`, constructed from `0` (PeriodicId.cpp line 18). -/
def PeriodicId.s_zero_id : PeriodicId := ⟨0⟩

/-- The per-axis coarse-index computation of the accelerated
`FaceConstantRefine` kernels: `(i < 0) ? (i + 1) / r - 1 : i / r`, with C
integer division truncating toward zero (`Int.tdiv`). -/
def coarsenIndex (i r : Int) : Int :=
  if i < 0 then (i + 1).tdiv r - 1 else i.tdiv r

/-- For a positive ratio the C conditional formula computes floor division
(truncation toward negative infinity). -/
theorem coarsenIndex_eq_fdiv (i : Int) {r : Int} (hr : 0 < r) :
    coarsenIndex i r = Int.fdiv i r := by
  rw [Int.fdiv_eq_ediv i hr.le]
  unfold coarsenIndex
  by_cases hi : i < 0
  · simp only [if_pos hi]
    have hip : (0 : Int) ≤ -(i + 1) := by omega
    have hstep : (i + 1).tdiv r = -(-(i + 1) / r) := by
      have h := Int.neg_tdiv (-(i + 1)) r
      rw [neg_neg] at h
      rw [h, Int.tdiv_eq_ediv hip hr.le]
    rw [hstep]
    have hq := Int.ediv_add_emod i r
    have hs0 := Int.emod_nonneg i hr.ne'
    have hsr := Int.emod_lt_of_pos i hr
    have key : -(i + 1) = (r - 1 - i % r) + (-(i / r) - 1) * r := by linear_combination hq
    rw [key, Int.add_mul_ediv_right _ _ hr.ne']
    have hz : (r - 1 - i % r) / r = 0 := Int.ediv_eq_zero_of_lt (by omega) (by omega)
    rw [hz]
    ring
  · simp only [if_neg hi]
    exact Int.tdiv_eq_ediv (by omega) hr.le

/-- An axis-aligned 2D integer index box `[lo0, hi0] x [lo1, hi1]`
(`hier::Box` in two dimensions). -/
structure Box2 where
  lo0 : Int
  lo1 : Int
  hi0 : Int
  hi1 : Int
  deriving DecidableEq

/-- Membership of an index pair in a 2D box. -/
def Box2.memB (b : Box2) (j k : Int) : Bool :=
  decide (b.lo0 ≤ j) && decide (j ≤ b.hi0) && decide (b.lo1 ≤ k) && decide (k ≤ b.hi1)

/-- The `fine_box` that `FaceConstantRefine<T>::refine` builds in 2D from one
destination `face_box` of the overlap for direction `axis`
(FaceConstantRefine.cpp lines 71-81): coordinate `(axis + i) % 2` of
`fine_box` is coordinate `i` of `face_box`, and then the upper bound along
`axis` is decremented by one. -/
def fineBox2 (axis : Nat) (fb : Box2) : Box2 :=
  if axis = 0 then ⟨fb.lo0, fb.lo1, fb.hi0 - 1, fb.hi1⟩
  else ⟨fb.lo1, fb.lo0, fb.hi1, fb.hi0 - 1⟩

/-- The `fine_box_plus` of the RAJA 2D path (FaceConstantRefine.cpp lines
101-109): transpose the box when `axis == 1`, then `growUpper(0, 1)`. -/
def fineBoxPlus2 (axis : Nat) (fb : Box2) : Box2 :=
  let t := fineBox2 axis fb
  let fp := if axis = 1 then Box2.mk t.lo1 t.lo0 t.hi1 t.hi0 else t
  ⟨fp.lo0, fp.lo1, fp.hi0 + 1, fp.hi1⟩

/-- For the two directions of a 2D patch, the box iterated by the RAJA lambda
is exactly the destination `face_box` in face-index coordinates. -/
theorem fineBoxPlus2_eq_faceBox (axis : Nat) (haxis : axis ≤ 1) (fb : Box2) :
    fineBoxPlus2 axis fb = fb := by
  rcases fb with ⟨a, b, c, d⟩
  interval_cases axis <;> simp [fineBoxPlus2, fineBox2]

/-- One destination-box pass of the accelerated (RAJA `parallel_for_all`) 2D
kernel of `FaceConstantRefine<T>::refine` (FaceConstantRefine.cpp lines
111-122), viewed as the map from old fine data to new fine data in
face-index coordinates (the face-normal coordinate first, as laid out by
`FaceData<T>::getView(axis, d)`): every index `(j, k)` of `fine_box_plus`
receives the coarse value at `(coarsenIndex j r0, coarsenIndex k r1)` with
`r0 = ratio[0]` and `r1 = ratio[1]`; every index outside the box keeps the
old fine value.  `V` is the stored value type. -/
def refine2dRAJA {V : Type} (axis : Nat) (fb : Box2) (r0 r1 : Int)
    (coarse fine : Int → Int → V) : Int → Int → V :=
  fun j k =>
    if (fineBoxPlus2 axis fb).memB j k then
      coarse (coarsenIndex j r0) (coarsenIndex k r1)
    else fine j k

/-- Modelled from the spec: the scalar sequential 2D path of
`FaceConstantRefine<T>::refine` (the Fortran kernels behind
`Call2dFortranFace_d0` and `Call2dFortranFace_d1`, whose sources are not part
of this excerpt).  Per the spec, every destination fine face index maps per
axis to the coarse source index `floor(i / r)` (truncation toward negative
infinity) using the refinement-ratio component of the corresponding real
axis; in face-index coordinates for direction `axis`, view coordinate `i`
corresponds to real axis `(axis + i) % 2`, so the first (face-normal)
coordinate is divided by `ratio[axis]`. -/
def refine2dScalar {V : Type} (axis : Nat) (fb : Box2) (r0 r1 : Int)
    (coarse fine : Int → Int → V) : Int → Int → V :=
  fun j k =>
    if fb.memB j k then
      coarse (Int.fdiv j (if axis = 0 then r0 else r1))
        (Int.fdiv k (if axis = 0 then r1 else r0))
    else fine j k

/-- For direction 0 (no transpose) the accelerated and scalar 2D paths agree
pointwise for positive ratios. -/
theorem refine2d_paths_agree_axis0 {V : Type} (fb : Box2) (r0 r1 : Int)
    (h0 : 0 < r0) (h1 : 0 < r1) (coarse fine : Int → Int → V) (j k : Int) :
    refine2dRAJA 0 fb r0 r1 coarse fine j k = refine2dScalar 0 fb r0 r1 coarse fine j k := by
  unfold refine2dRAJA refine2dScalar
  rw [fineBoxPlus2_eq_faceBox 0 (by omega) fb,
    coarsenIndex_eq_fdiv j h0, coarsenIndex_eq_fdiv k h1]
  simp

/-- An axis-aligned 3D integer index box (`hier::Box` in three dimensions). -/
structure Box3 where
  lo0 : Int
  lo1 : Int
  lo2 : Int
  hi0 : Int
  hi1 : Int
  hi2 : Int
  deriving DecidableEq

/-- Membership of an index triple in a 3D box. -/
def Box3.memB (b : Box3) (i j k : Int) : Bool :=
  decide (b.lo0 ≤ i) && decide (i ≤ b.hi0) && decide (b.lo1 ≤ j) && decide (j ≤ b.hi1) &&
    decide (b.lo2 ≤ k) && decide (k ≤ b.hi2)

/-- The `fine_box` built in 3D (FaceConstantRefine.cpp lines 71-81):
coordinate `(axis + i) % 3` of `fine_box` is coordinate `i` of `face_box`,
then the upper bound along `axis` is decremented by one. -/
def fineBox3 (axis : Nat) (fb : Box3) : Box3 :=
  if axis = 0 then ⟨fb.lo0, fb.lo1, fb.lo2, fb.hi0 - 1, fb.hi1, fb.hi2⟩
  else if axis = 1 then ⟨fb.lo2, fb.lo0, fb.lo1, fb.hi2, fb.hi0 - 1, fb.hi1⟩
  else ⟨fb.lo1, fb.lo2, fb.lo0, fb.hi1, fb.hi2, fb.hi0 - 1⟩

/-- The `fine_box_plus` of the RAJA 3D path (FaceConstantRefine.cpp lines
146-165): transpose `<1,2,0>` for `axis == 1`, transpose `<2,0,1>` for
`axis == 2`, then `growUpper(0, 1)`. -/
def fineBoxPlus3 (axis : Nat) (fb : Box3) : Box3 :=
  let t := fineBox3 axis fb
  let fp :=
    if axis = 1 then Box3.mk t.lo1 t.lo2 t.lo0 t.hi1 t.hi2 t.hi0
    else if axis = 2 then Box3.mk t.lo2 t.lo0 t.lo1 t.hi2 t.hi0 t.hi1
    else t
  ⟨fp.lo0, fp.lo1, fp.lo2, fp.hi0 + 1, fp.hi1, fp.hi2⟩

/-- One destination-box pass of the accelerated (RAJA `parallel_for_all`) 3D
kernel of `FaceConstantRefine<T>::refine` (FaceConstantRefine.cpp lines
167-180), in face-index coordinates: every index of `fine_box_plus`
receives the coarse value at `(coarsenIndex i r0, coarsenIndex j r1,
coarsenIndex k r2)` with `r0 = ratio[0]`, `r1 = ratio[1]`, `r2 = ratio[2]`. -/
def refine3dRAJA {V : Type} (axis : Nat) (fb : Box3) (r0 r1 r2 : Int)
    (coarse fine : Int → Int → Int → V) : Int → Int → Int → V :=
  fun i j k =>
    if (fineBoxPlus3 axis fb).memB i j k then
      coarse (coarsenIndex i r0) (coarsenIndex j r1) (coarsenIndex k r2)
    else fine i j k

/-- Modelled from the spec: the scalar sequential 3D path of
`FaceConstantRefine<T>::refine` (the Fortran kernels behind
`Call3dFortranFace_d0/_d1/_d2`, whose sources are not part of this excerpt).
Every destination fine face index maps per axis to `floor(i / r)` with the
ratio component of the corresponding real axis; view coordinate `m`
corresponds to real axis `(axis + m) % 3`. -/
def refine3dScalar {V : Type} (axis : Nat) (fb : Box3) (r0 r1 r2 : Int)
    (coarse fine : Int → Int → Int → V) : Int → Int → Int → V :=
  fun i j k =>
    if fb.memB i j k then
      coarse (Int.fdiv i (if axis = 0 then r0 else if axis = 1 then r1 else r2))
        (Int.fdiv j (if axis = 0 then r1 else if axis = 1 then r2 else r0))
        (Int.fdiv k (if axis = 0 then r2 else if axis = 1 then r0 else r1))
    else fine i j k

/-- C1: code bug.  In the accelerated paths with `axis = 1` the iteration
box is transposed into face-index coordinates (face-normal coordinate, real
axis 1, first), but the lambdas still divide the first view coordinate by
`r0 = ratio[0]`.  In 2D with the anisotropic refinement ratio `(2, 3)`, a
destination box covering face index `(5, 0)` and coarse data returning its
own index pair, the accelerated path stores the coarse value at
`(5 tdiv 2, 0) = (2, 0)`, while floor division by the matching per-axis
ratio — and the scalar path — requires `(floor(5 / 3), 0) = (1, 0)`; in 3D
with ratio `(2, 3, 4)` the same index diverges as `(2, 0, 0)` against
`(1, 0, 0)`. -/
theorem C1_anisotropic_axis1_divergence :
    (refine2dRAJA 1 ⟨0, 0, 8, 8⟩ 2 3 (fun p q => (p, q)) (fun _ _ => (99, 99)) 5 0 = (2, 0) ∧
      refine2dScalar 1 ⟨0, 0, 8, 8⟩ 2 3 (fun p q => (p, q)) (fun _ _ => (99, 99)) 5 0 = (1, 0) ∧
      ((2, 0) : Int × Int) ≠ (1, 0)) ∧
    (refine3dRAJA 1 ⟨0, 0, 0, 8, 8, 8⟩ 2 3 4 (fun p q s => (p, q, s))
        (fun _ _ _ => (99, 99, 99)) 5 0 0 = (2, 0, 0) ∧
      refine3dScalar 1 ⟨0, 0, 0, 8, 8, 8⟩ 2 3 4 (fun p q s => (p, q, s))
        (fun _ _ _ => (99, 99, 99)) 5 0 0 = (1, 0, 0) ∧
      ((2, 0, 0) : Int × Int × Int) ≠ (1, 0, 0)) :=
  ⟨⟨rfl, rfl, by decide⟩, ⟨rfl, rfl, by decide⟩⟩

/-- C8 counterexample: `PeriodicId::s_invalid_id` is constructed from `-1`,
not from the maximum representable value of the underlying `int`. -/
theorem C8_periodicid_invalid_is_not_intmax :
    PeriodicId.s_invalid_id.d_value = -1 ∧ PeriodicId.s_invalid_id.d_value ≠ intMax :=
  ⟨rfl, by decide⟩

/-- C8 (amended): `BlockId`'s invalid sentinel is the maximum representable
`int` and `PeriodicId`'s invalid sentinel is `-1`; both zero identity values
are `0`. -/
theorem C8_sentinel_values :
    BlockId.s_invalid_id.d_value = intMax ∧ BlockId.s_zero_id.d_value = 0 ∧
    PeriodicId.s_invalid_id.d_value = -1 ∧ PeriodicId.s_zero_id.d_value = 0 :=
  ⟨rfl, rfl, rfl, rfl⟩

/-- A patch level operand of the transaction factory: its dimension
(`getDim()`). -/
structure LevelRec where
  dim : Nat
  deriving DecidableEq

/-- A box operand of the transaction factory: its dimension and its local
identifier (non-negative once valid; negative means not yet assigned). -/
structure BoxRec where
  dim : Nat
  localId : Int
  deriving DecidableEq

/-- `hier::Box(dim)`: a default-constructed (empty) box of the given
dimension, carrying the unassigned local-id sentinel. -/
def defaultBox (d : Nat) : BoxRec := ⟨d, -1⟩

/-- A box overlap operand (opaque payload; only its identity is recorded). -/
structure OverlapRec where
  tag : Nat
  deriving DecidableEq

/-- The contract failures of `OuternodeSumTransactionFactory::allocate`, in
the source order of its `TBOX_ASSERT` checks
(OuternodeSumTransactionFactory.cpp lines 69-75). -/
inductive AllocError where
  | nullDstLevel
  | nullSrcLevel
  | nullOverlap
  | invalidDstId
  | invalidSrcId
  | nullRefineData
  | dimensionMismatch
  deriving DecidableEq

/-- The `algs::OuternodeSumTransaction` produced on success: it records the
seven constructor arguments (OuternodeSumTransactionFactory.cpp lines 77-83). -/
structure OuternodeSumTransaction where
  dst_level : LevelRec
  src_level : LevelRec
  overlap : OverlapRec
  dst_node : BoxRec
  src_node : BoxRec
  refine_data : Nat
  item_id : Int
  deriving DecidableEq

/-- The nine-argument `OuternodeSumTransactionFactory::allocate`
(OuternodeSumTransactionFactory.cpp lines 54-84).  `box` and
`use_time_interpolation` are unused (`NULL_USE`); the `TBOX_ASSERT` checks
run in source order; on success the transaction records the remaining
arguments. -/
def OuternodeSumTransactionFactory.allocate9
    (dst_level src_level : Option LevelRec) (overlap : Option OverlapRec)
    (dst_node src_node : BoxRec) (refine_data : Option Nat) (item_id : Int)
    (box : BoxRec) (use_time_interpolation : Bool) :
    Except AllocError OuternodeSumTransaction :=
  match dst_level, src_level, overlap with
  | none, _, _ => .error .nullDstLevel
  | some _, none, _ => .error .nullSrcLevel
  | some _, some _, none => .error .nullOverlap
  | some dl, some sl, some ov =>
    if dst_node.localId < 0 then .error .invalidDstId
    else if src_node.localId < 0 then .error .invalidSrcId
    else
      match refine_data with
      | none => .error .nullRefineData
      | some rd =>
        if dl.dim = sl.dim ∧ dl.dim = dst_node.dim ∧ dl.dim = src_node.dim then
          .ok ⟨dl, sl, ov, dst_node, src_node, rd, item_id⟩
        else .error .dimensionMismatch

/-- The six-argument convenience overload of
`OuternodeSumTransactionFactory::allocate` (OuternodeSumTransactionFactory.cpp
lines 86-113): it repeats the same `TBOX_ASSERT` checks and then calls the
nine-argument overload with a default-constructed
`hier::Box(dst_level->getDim())` and `use_time_interpolation = false`. -/
def OuternodeSumTransactionFactory.allocate6
    (dst_level src_level : Option LevelRec) (overlap : Option OverlapRec)
    (dst_node src_node : BoxRec) (refine_data : Option Nat) (item_id : Int) :
    Except AllocError OuternodeSumTransaction :=
  match dst_level, src_level, overlap with
  | none, _, _ => .error .nullDstLevel
  | some _, none, _ => .error .nullSrcLevel
  | some _, some _, none => .error .nullOverlap
  | some dl, some sl, some ov =>
    if dst_node.localId < 0 then .error .invalidDstId
    else if src_node.localId < 0 then .error .invalidSrcId
    else
      match refine_data with
      | none => .error .nullRefineData
      | some rd =>
        if dl.dim = sl.dim ∧ dl.dim = dst_node.dim ∧ dl.dim = src_node.dim then
          OuternodeSumTransactionFactory.allocate9 (some dl) (some sl) (some ov)
            dst_node src_node (some rd) item_id (defaultBox dl.dim) false
        else .error .dimensionMismatch

/-- C4: for non-null destination and source levels, a non-null overlap, boxes
with non-negative local ids, non-null refine data and any item id, the
six-argument overload returns exactly the transaction the nine-argument
overload returns when the defaults are passed explicitly — for every
explicitly passed clip box (so in particular for the full
destination-level box) with time interpolation disabled. -/
theorem C4_allocate_overload_equivalence
    (dl sl : LevelRec) (ov : OverlapRec) (dn sn : BoxRec) (rd : Nat) (item : Int)
    (hdn : 0 ≤ dn.localId) (hsn : 0 ≤ sn.localId) (clip : BoxRec) :
    OuternodeSumTransactionFactory.allocate6 (some dl) (some sl) (some ov) dn sn (some rd) item =
      OuternodeSumTransactionFactory.allocate9 (some dl) (some sl) (some ov) dn sn (some rd)
        item clip false := by
  have h1 : ¬ dn.localId < 0 := by omega
  have h2 : ¬ sn.localId < 0 := by omega
  by_cases hdim : dl.dim = sl.dim ∧ dl.dim = dn.dim ∧ dl.dim = sn.dim
  · simp [OuternodeSumTransactionFactory.allocate6,
      OuternodeSumTransactionFactory.allocate9, h1, h2, eq_true hdim]
  · simp [OuternodeSumTransactionFactory.allocate6,
      OuternodeSumTransactionFactory.allocate9, h1, h2, eq_false hdim]

/-- C4 witness: a concrete valid call on which the two overloads coincide. -/
theorem C4_allocate_overload_equivalence_witness :
    OuternodeSumTransactionFactory.allocate6 (some ⟨2⟩) (some ⟨2⟩) (some ⟨0⟩) ⟨2, 0⟩ ⟨2, 1⟩
        (some 0) 7 =
      OuternodeSumTransactionFactory.allocate9 (some ⟨2⟩) (some ⟨2⟩) (some ⟨0⟩) ⟨2, 0⟩ ⟨2, 1⟩
        (some 0) 7 ⟨2, -1⟩ false :=
  C4_allocate_overload_equivalence ⟨2⟩ ⟨2⟩ ⟨0⟩ ⟨2, 0⟩ ⟨2, 1⟩ 0 7 (by decide) (by decide) ⟨2, -1⟩

/-- The operands of a `FaceConstantRefine<T>::refine` call that determine its
contract checks and control flow: the dimensions of the fine patch, the
coarse patch and the ratio vector; whether the overlap casts to
`pdat::FaceOverlap` and whether the two patch-data casts succeed; the two
data depths; and how many destination boxes the overlap supplies per
direction.  Box contents and stored values only matter inside the kernels
(modelled by `refine2dRAJA` and `refine2dScalar`), not to which check or
branch runs. -/
structure RefineCall where
  fineDim : Nat
  coarseDim : Nat
  ratioDim : Nat
  overlapIsFace : Bool
  cdataPresent : Bool
  fdataPresent : Bool
  cdepth : Nat
  fdepth : Nat
  dstBoxCount : Nat → Nat

/-- The contract failures of `FaceConstantRefine<T>::refine`, in source order
(FaceConstantRefine.cpp lines 45-53 and the `TBOX_ERROR` at lines 224-228). -/
inductive RefineError where
  | invalidOverlapType
  | nullData
  | depthMismatch
  | dimensionMismatch
  | unsupportedDimension
  deriving DecidableEq

/-- Control-flow skeleton of `FaceConstantRefine<T>::refine`: the
`TBOX_ASSERT` contract checks in source order, then the nested loops over
directions, destination boxes and depths.  A patch dimension of 1, 2 or 3
dispatches to a kernel; any larger dimension reaches the `TBOX_ERROR`
branch on the first depth iteration of the first destination box of the
first direction that has one — so a call supplying no destination boxes, or
depth-zero data, finishes without entering the dimension dispatch at all. -/
def FaceConstantRefine.refineChecks (c : RefineCall) : Except RefineError Unit :=
  if !c.overlapIsFace then .error .invalidOverlapType
  else if !c.cdataPresent || !c.fdataPresent then .error .nullData
  else if c.cdepth ≠ c.fdepth then .error .depthMismatch
  else if ¬(c.fineDim = c.coarseDim ∧ c.fineDim = c.ratioDim) then .error .dimensionMismatch
  else if c.fineDim ≤ 3 then .ok ()
  else if ((List.range c.fineDim).any fun a => c.dstBoxCount a != 0) && c.fdepth != 0 then
    .error .unsupportedDimension
  else .ok ()

/-- C6 (amended): with the remaining preconditions satisfied (non-null
levels, overlap and refine data, non-negative box local ids; for the refine
operator a valid overlap type, successful data casts and equal depths), an
`OuternodeSumTransactionFactory::allocate` call or a
`FaceConstantRefine::refine` call whose operands do not all share one
Dimension value fails with the dimension-mismatch check and does not
silently proceed; when all operand dimensions agree that failure branch is
unreachable. -/
theorem C6_dimension_rejection
    (dl sl : LevelRec) (ov : OverlapRec) (dn sn : BoxRec) (rd : Nat) (item : Int)
    (clip : BoxRec) (uti : Bool) (hdn : 0 ≤ dn.localId) (hsn : 0 ≤ sn.localId)
    (c : RefineCall) (hov : c.overlapIsFace = true) (hcd : c.cdataPresent = true)
    (hfd : c.fdataPresent = true) (hdepth : c.cdepth = c.fdepth) :
    (¬(dl.dim = sl.dim ∧ dl.dim = dn.dim ∧ dl.dim = sn.dim) →
      OuternodeSumTransactionFactory.allocate9 (some dl) (some sl) (some ov) dn sn (some rd)
          item clip uti = .error .dimensionMismatch) ∧
    ((dl.dim = sl.dim ∧ dl.dim = dn.dim ∧ dl.dim = sn.dim) →
      OuternodeSumTransactionFactory.allocate9 (some dl) (some sl) (some ov) dn sn (some rd)
          item clip uti ≠ .error .dimensionMismatch) ∧
    (¬(c.fineDim = c.coarseDim ∧ c.fineDim = c.ratioDim) →
      FaceConstantRefine.refineChecks c = .error .dimensionMismatch) ∧
    ((c.fineDim = c.coarseDim ∧ c.fineDim = c.ratioDim) →
      FaceConstantRefine.refineChecks c ≠ .error .dimensionMismatch) := by
  have h1 : ¬ dn.localId < 0 := by omega
  have h2 : ¬ sn.localId < 0 := by omega
  refine ⟨fun hdim => ?_, fun hdim => ?_, fun hdim => ?_, fun hdim => ?_⟩
  · simp [OuternodeSumTransactionFactory.allocate9, h1, h2, eq_false hdim]
  · simp [OuternodeSumTransactionFactory.allocate9, h1, h2, eq_true hdim]
  · simp [FaceConstantRefine.refineChecks, hov, hcd, hfd, hdepth, eq_false hdim]
  · simp only [FaceConstantRefine.refineChecks, hov, hcd, hfd, hdepth, eq_true hdim]
    split_ifs <;> simp_all

/-- C6 witness: a 2D/3D dimension clash with all remaining preconditions
satisfied is rejected by the dimension check in both entry points. -/
theorem C6_dimension_rejection_witness :
    OuternodeSumTransactionFactory.allocate9 (some ⟨2⟩) (some ⟨2⟩) (some ⟨0⟩) ⟨2, 0⟩ ⟨3, 0⟩
        (some 0) 0 ⟨2, -1⟩ false = .error .dimensionMismatch ∧
    FaceConstantRefine.refineChecks ⟨2, 2, 3, true, true, true, 1, 1, fun _ => 1⟩ =
      .error .dimensionMismatch := by
  have h := C6_dimension_rejection ⟨2⟩ ⟨2⟩ ⟨0⟩ ⟨2, 0⟩ ⟨3, 0⟩ 0 0 ⟨2, -1⟩ false
    (by decide) (by decide) ⟨2, 2, 3, true, true, true, 1, 1, fun _ => 1⟩ rfl rfl rfl rfl
  exact ⟨h.1 (by decide), h.2.2.1 (by decide)⟩

/-- C6 counterexample: an allocate call whose operand dimensions differ (the
source box is 3-dimensional, everything else 2-dimensional) but whose
destination box carries the negative local id `-1` fails the earlier
local-id assertion, not the dimension check, because the `TBOX_ASSERT`
checks run in source order. -/
theorem C6_mismatch_without_dimension_diagnostic :
    OuternodeSumTransactionFactory.allocate9 (some ⟨2⟩) (some ⟨2⟩) (some ⟨0⟩) ⟨2, -1⟩ ⟨3, 0⟩
        (some 0) 0 ⟨2, -1⟩ false = .error .invalidDstId ∧
    ¬((2 : Nat) = 2 ∧ (2 : Nat) = 2 ∧ (2 : Nat) = 3) ∧
    AllocError.invalidDstId ≠ AllocError.dimensionMismatch :=
  ⟨rfl, by decide, by decide⟩

/-- C7 counterexample: a `FaceConstantRefine::refine` call on 4-dimensional
patches whose overlap supplies no destination boxes passes every contract
check and returns without raising the unsupported-dimension error. -/
theorem C7_dim4_empty_overlap_no_failure :
    FaceConstantRefine.refineChecks ⟨4, 4, 4, true, true, true, 1, 1, fun _ => 0⟩ = .ok () ∧
    (Except.ok () : Except RefineError Unit) ≠ .error .unsupportedDimension :=
  ⟨rfl, by simp⟩

/-- C7 (amended): a `FaceConstantRefine::refine` call on patches of Dimension
greater than 3 that passes the earlier contract checks fails fatally with
the `UnsupportedDimension` diagnostic provided the overlap supplies at least
one destination box in some direction and the data depth is positive; a
call with no destination boxes or depth-zero data returns without computing
anything. -/
theorem C7_unsupported_dimension (c : RefineCall)
    (hov : c.overlapIsFace = true) (hcd : c.cdataPresent = true)
    (hfd : c.fdataPresent = true) (hdepth : c.cdepth = c.fdepth)
    (hdim : c.fineDim = c.coarseDim ∧ c.fineDim = c.ratioDim)
    (hgt : 3 < c.fineDim) (a : Nat) (ha : a < c.fineDim)
    (hbox : c.dstBoxCount a ≠ 0) (hd : c.fdepth ≠ 0) :
    FaceConstantRefine.refineChecks c = .error .unsupportedDimension := by
  have hany : ((List.range c.fineDim).any fun x => c.dstBoxCount x != 0) = true := by
    rw [List.any_eq_true]
    exact ⟨a, List.mem_range.mpr ha, by simpa using hbox⟩
  simp [FaceConstantRefine.refineChecks, hov, hcd, hfd, hdepth, eq_true hdim, hany, hd,
    not_le.mpr hgt]

/-- C7 witness: a 4-dimensional call with one destination box and depth two
reaches the unsupported-dimension diagnostic. -/
theorem C7_unsupported_dimension_witness :
    FaceConstantRefine.refineChecks ⟨4, 4, 4, true, true, true, 2, 2, fun _ => 1⟩ =
      .error .unsupportedDimension :=
  C7_unsupported_dimension ⟨4, 4, 4, true, true, true, 2, 2, fun _ => 1⟩ rfl rfl rfl rfl
    (by decide) (by decide) 0 (by decide) (by decide) (by decide)

/-- A patch: `getPatchData(n)` for every patch-data component index `n`, each
a flat list of the stored values of its outernode boundary layer, rationals
standing for C `double`s. -/
structure PatchRec where
  patchData : Nat → List Rat

/-- `hier::PatchLevel`: the ordered patches of one level. -/
structure PatchLevelRec where
  patches : List PatchRec

/-- `hier::ComponentSelector`: a sized bit vector with `getSize()` and
`isSet(n)`. -/
structure ComponentSelector where
  size : Nat
  isSet : Nat → Bool

/-- `pdat::OuternodeData<double>::fillAll(v)`: every stored value becomes `v`. -/
def fillAll (v : Rat) (l : List Rat) : List Rat := l.map fun _ => v

/-- `OuternodeSumTransactionFactory::preprocessScratchSpace`
(OuternodeSumTransactionFactory.cpp lines 123-147): for every patch of the
level and every component index `n` below `getSize()` whose selector bit is
set, the outernode data of component `n` is filled with `0.0`; every other
component is untouched and the `fill_time` argument is unused (`NULL_USE`). -/
def OuternodeSumTransactionFactory.preprocessScratchSpace
    (level : PatchLevelRec) (fill_time : Rat) (preprocess_vector : ComponentSelector) :
    PatchLevelRec :=
  ⟨level.patches.map fun p =>
    ⟨fun n =>
      if n < preprocess_vector.size ∧ preprocess_vector.isSet n = true then
        fillAll 0 (p.patchData n)
      else p.patchData n⟩⟩

/-- C2: after `preprocessScratchSpace` returns, every stored value of every
selected outernode component on every patch of the level equals exactly
`0.0` (patch positions are read with a valueless default, so the statement
covers every patch of the level). -/
theorem C2_preprocess_zero_fill (level : PatchLevelRec) (t : Rat)
    (sel : ComponentSelector) (i n : Nat) (hn : n < sel.size)
    (hset : sel.isSet n = true) (v : Rat)
    (hv : v ∈ ((OuternodeSumTransactionFactory.preprocessScratchSpace level t
        sel).patches.getD i ⟨fun _ => []⟩).patchData n) :
    v = 0 := by
  unfold OuternodeSumTransactionFactory.preprocessScratchSpace at hv
  rw [List.getD_eq_getElem?_getD, List.getElem?_map] at hv
  cases hmem : level.patches[i]? with
  | none => rw [hmem] at hv; simp at hv
  | some p =>
    rw [hmem] at hv
    change v ∈ (if n < sel.size ∧ sel.isSet n = true then fillAll 0 (p.patchData n)
      else p.patchData n) at hv
    rw [if_pos ⟨hn, hset⟩] at hv
    unfold fillAll at hv
    rcases List.mem_map.mp hv with ⟨w, _, hw⟩
    exact hw.symm

/-- C2 witness: a concrete one-patch level with selected component `0`
holding values `3` and `5` is zero-filled. -/
theorem C2_preprocess_zero_fill_witness :
    (0 : Nat) < 1 ∧
    ((0 : Rat) ∈ ((OuternodeSumTransactionFactory.preprocessScratchSpace
        ⟨[⟨fun _ => [3, 5]⟩]⟩ 0 ⟨1, fun _ => true⟩).patches.getD 0
          ⟨fun _ => []⟩).patchData 0) ∧
    (0 : Rat) = 0 :=
  ⟨by decide,
    by simp [OuternodeSumTransactionFactory.preprocessScratchSpace, fillAll],
    C2_preprocess_zero_fill ⟨[⟨fun _ => [3, 5]⟩]⟩ 0 ⟨1, fun _ => true⟩ 0 0 (by decide) rfl 0
      (by simp [OuternodeSumTransactionFactory.preprocessScratchSpace, fillAll])⟩

/-- C10: `preprocessScratchSpace` ignores its `fill_time` argument, and on
every patch it leaves every component whose selector bit is not set (or
whose index is outside the selector) unchanged; the patch list itself keeps
its length.  Patch positions are compared through `getElem?`, which also
shows no patches are added or dropped. -/
theorem C10_preprocess_frame (level : PatchLevelRec) (t t' : Rat)
    (sel : ComponentSelector) :
    OuternodeSumTransactionFactory.preprocessScratchSpace level t sel =
      OuternodeSumTransactionFactory.preprocessScratchSpace level t' sel ∧
    (OuternodeSumTransactionFactory.preprocessScratchSpace level t sel).patches.length =
      level.patches.length ∧
    ∀ (i n : Nat), ¬(n < sel.size ∧ sel.isSet n = true) →
      ((OuternodeSumTransactionFactory.preprocessScratchSpace level t
          sel).patches[i]?.map fun p => p.patchData n) =
        (level.patches[i]?.map fun p => p.patchData n) := by
  refine ⟨rfl, ?_, ?_⟩
  · unfold OuternodeSumTransactionFactory.preprocessScratchSpace
    exact List.length_map _ _
  · intro i n hns
    unfold OuternodeSumTransactionFactory.preprocessScratchSpace
    rw [List.getElem?_map]
    cases level.patches[i]? with
    | none => rfl
    | some p => simp [hns]

/-- C10 witness: with an empty selector nothing changes on a concrete level,
at any two fill times. -/
theorem C10_preprocess_frame_witness :
    ((OuternodeSumTransactionFactory.preprocessScratchSpace ⟨[⟨fun _ => [7]⟩]⟩ 1
        ⟨0, fun _ => false⟩).patches[0]?.map fun p => p.patchData 0) =
      (([⟨fun _ => [7]⟩] : List PatchRec)[0]?.map fun p => p.patchData 0) :=
  (C10_preprocess_frame ⟨[⟨fun _ => [7]⟩]⟩ 1 2 ⟨0, fun _ => false⟩).2.2 0 0 (by decide)

/-- `std::vector<T>::resize(n, fill)`: keep the first `n` entries, append
copies of `fill` while the vector grows to length `n`. -/
def resizeFill {α : Type} (v : List α) (n : Nat) (x : α) : List α :=
  v.take n ++ List.replicate (n - v.length) x

/-- `TimeRefinementIntegratorConnectorWidthRequestor::computeRequiredConnectorWidths`
(TimeRefinementIntegratorConnectorWidthRequestor.cpp lines 199-217).
`tagBuffer` is the requester's `d_tag_buffer` (set by `setTagBuffer`);
`dim` and `maxLevels` come from the hierarchy (`getDim()`,
`getMaxNumberOfLevels()`); the two in/out vector parameters are modelled as
inputs and the outputs are returned as the pair (self, fine).
`hier::IntVector(dim, v)` is `dim` copies of `v`, `IntVector::getZero(dim)`
is `dim` zeros.  `fine_connector_widths` is resized to `maxLevels - 1`
entries with zero-vector fill; `self_connector_widths` is cleared and
rebuilt with, at each level `ln`, the width `d_tag_buffer[ln]` in every
axis when `d_tag_buffer.size() > ln` and `d_tag_buffer.back()` otherwise. -/
def computeRequiredConnectorWidths (tagBuffer : List Int) (dim maxLevels : Nat)
    (selfIn fineIn : List (List Int)) : List (List Int) × List (List Int) :=
  let fineOut := resizeFill fineIn (maxLevels - 1) (List.replicate dim 0)
  let selfOut := (List.range maxLevels).map fun ln =>
    List.replicate dim (if ln < tagBuffer.length then tagBuffer.getD ln 0
      else tagBuffer.getLast?.getD 0)
  (selfOut, fineOut)

/-- C3: for a non-empty tag buffer, `self_connector_widths` comes back with
exactly `maxLevels` entries; entry `ln` is, in every axis, the tag buffer's
entry `ln` when `ln` is within the list and the list's last supplied value
for every remaining finer level. -/
theorem C3_self_connector_widths (tagBuffer : List Int) (hne : tagBuffer ≠ [])
    (dim maxLevels : Nat) (selfIn fineIn : List (List Int)) :
    (computeRequiredConnectorWidths tagBuffer dim maxLevels selfIn fineIn).1.length =
      maxLevels ∧
    ∀ ln, ln < maxLevels →
      (computeRequiredConnectorWidths tagBuffer dim maxLevels selfIn fineIn).1.getD ln [] =
        List.replicate dim (if ln < tagBuffer.length then tagBuffer.getD ln 0
          else tagBuffer.getLast hne) := by
  constructor
  · simp [computeRequiredConnectorWidths]
  · intro ln hln
    unfold computeRequiredConnectorWidths
    rw [List.getD_eq_getElem?_getD, List.getElem?_map, List.getElem?_range hln,
      List.getLast?_eq_getLast _ hne]
    rfl

/-- C3 witness: a four-level hierarchy with the two-entry tag buffer `[2, 5]`
gets four self widths, the deeper levels replicating the last entry `5` in
both axes. -/
theorem C3_self_connector_widths_witness :
    (computeRequiredConnectorWidths [2, 5] 2 4 [] []).1.length = 4 ∧
    (computeRequiredConnectorWidths [2, 5] 2 4 [] []).1.getD 3 [] = [5, 5] := by
  have h := C3_self_connector_widths [2, 5] (by decide) 2 4 [] []
  refine ⟨h.1, ?_⟩
  rw [h.2 3 (by decide)]
  rfl

/-- C9: on the spec's functional calling convention (the out-parameter
arrives empty), `fine_connector_widths` comes back with exactly
`maxLevels - 1` entries, each the `dim`-dimensional zero vector, and the tag
buffer influences only `self_connector_widths`: the fine widths are
identical for any two tag buffers. -/
theorem C9_fine_connector_widths (tagBuffer : List Int) (dim maxLevels : Nat)
    (selfIn fineIn : List (List Int)) (hf : fineIn = []) :
    ((computeRequiredConnectorWidths tagBuffer dim maxLevels selfIn fineIn).2.length =
        maxLevels - 1 ∧
      ∀ w ∈ (computeRequiredConnectorWidths tagBuffer dim maxLevels selfIn fineIn).2,
        w = List.replicate dim 0) ∧
    ∀ tagBuffer2, (computeRequiredConnectorWidths tagBuffer dim maxLevels selfIn fineIn).2 =
      (computeRequiredConnectorWidths tagBuffer2 dim maxLevels selfIn fineIn).2 := by
  subst hf
  refine ⟨⟨?_, ?_⟩, fun _ => rfl⟩
  · simp [computeRequiredConnectorWidths, resizeFill]
  · intro w hw
    simp only [computeRequiredConnectorWidths, resizeFill, List.take_nil,
      List.nil_append] at hw
    exact List.eq_of_mem_replicate hw

/-- C9 witness: a four-level hierarchy gets three fine widths, unchanged when
the tag buffer changes. -/
theorem C9_fine_connector_widths_witness :
    (computeRequiredConnectorWidths [2, 5] 2 4 [] []).2.length = 3 ∧
    (computeRequiredConnectorWidths [2, 5] 2 4 [] []).2 =
      (computeRequiredConnectorWidths [7] 2 4 [] []).2 := by
  have h := C9_fine_connector_widths [2, 5] 2 4 [] [] rfl
  exact ⟨h.1.1, h.2 [7]⟩
